import Mathlib

/-!
Shallow embedding of `src/flac-match-headers.py` (the header/candidate
reconciliation and conditional re-encode pipeline) together with the parts
of the mutagen FLAC container model the script relies on.

Conventions of the embedding:
* Python exceptions become `Except Err` values; each `Err` constructor is
  documented with the Python exception (or spec error name) it models.
* A parsed FLAC file (`mutagen.flac.FLAC`) becomes the structure `FLAC`:
  the ordered metadata block list, the vorbis-comment vendor string and
  tag list (mutagen exposes them through `flac.tags`, aliased with the
  vorbis-comment block inside `metadata_blocks`), and the audio payload
  byte range of the file backing the container.  mutagen's `save` only
  rewrites the metadata region (see the comment at lines 127-128 of the
  source), so the payload of a container is always the byte range of its
  own backing file; re-encoding yields a fresh `FLAC` with a fresh payload.
* Paths are opaque strings; the external `flac` executable invocation is a
  function parameter `re_encode`, exactly as `_match_flac` receives it.
-/

deriving instance DecidableEq for Except

/-- Stream-descriptor block (`mutagen.flac.StreamInfo`): the fields the
script reads (`min_blocksize`, `max_blocksize`, `min_framesize`,
`max_framesize`, `md5_signature`) plus the remaining sample geometry. -/
structure StreamInfo where
  min_blocksize : Nat
  max_blocksize : Nat
  min_framesize : Nat
  max_framesize : Nat
  sample_rate : Nat
  channels : Nat
  bits_per_sample : Nat
  total_samples : Nat
  md5_signature : Nat
deriving DecidableEq

/-- Seek point (`mutagen.flac.SeekPoint`): (first sample, byte offset,
number of samples) triple. -/
structure SeekPoint where
  first_sample : Nat
  byte_offset : Nat
  num_samples : Nat
deriving DecidableEq

/-- Metadata block of a FLAC container.  Tag content lives in the `FLAC`
structure (mutagen aliases `flac.tags` with the vorbis-comment block), so
`vorbisComment` is a positional marker here; likewise `picture`,
`cueSheet` and `application` carry no payload the script reads. -/
inductive MetadataBlock where
  | streamInfo (si : StreamInfo)
  | seekTable (seekpoints : List SeekPoint)
  | vorbisComment
  | padding (length : Nat)
  | picture
  | cueSheet
  | application
deriving DecidableEq

/-- Python-level type of a metadata block, the discriminator compared by
`list(map(type, flac.metadata_blocks))` in `_match_flac`. -/
inductive BlockType where
  | streamInfo
  | seekTable
  | vorbisComment
  | padding
  | picture
  | cueSheet
  | application
deriving DecidableEq

/-- Maps a block to its Python type (`type(block)`). -/
def MetadataBlock.btype : MetadataBlock → BlockType
  | .streamInfo _ => .streamInfo
  | .seekTable _ => .seekTable
  | .vorbisComment => .vorbisComment
  | .padding _ => .padding
  | .picture => .picture
  | .cueSheet => .cueSheet
  | .application => .application

/-- Parsed FLAC container (`mutagen.flac.FLAC`).  `payload` is the audio
byte range of the file backing this container object; mutagen's save
copies it unchanged (metadata-only rewrite). -/
structure FLAC where
  metadata_blocks : List MetadataBlock
  vendor : String
  tags : List (String × String)
  payload : List Nat
deriving DecidableEq

/-- Errors of the pipeline.  Each constructor models one concrete Python
exception site of `src/flac-match-headers.py`. -/
inductive Err where
  /-- `AudioDiffersError` raised in `_check_audio_data_match`. -/
  | audioDiffers
  /-- `EncodingDiffersError` raised in `_check_encoding_match`. -/
  | encodingDiffers
  /-- `AssertionError` from the two block-structure asserts at the top of
  `_match_flac` (the spec's `StructureMismatch`). -/
  | structureMismatch
  /-- `AssertionError` from `assert len(header_seektable) <= 1` in
  `_check_encoding_match`. -/
  | multipleSeekTables
  /-- `StopIteration` leaking out of
  `next(block for block in input.metadata_blocks if isinstance(block, SeekTable))`
  when the candidate has no seek-table block. -/
  | stopIteration
  /-- `IndexError` from `header_seektable[0]` (header without a seek
  table) or from `metadata_blocks[0]` on an empty block list. -/
  | indexError
  /-- Attribute access on a first metadata block that is not a
  `StreamInfo` (`AttributeError`). -/
  | attributeError
  /-- `AssertionError` from `assert len(padding_blocks) == 1` in
  `_get_flac_padding` (the spec's `MultiplePaddingBlocks`; the assert also
  fires when there are zero padding blocks). -/
  | paddingCountNotOne
  /-- `KeyError` from `tags["tracknumber"]` on a container without that
  tag. -/
  | keyError
  /-- `ValueError` from `int(...)` on a non-integer tag value. -/
  | valueError
  /-- `AssertionError` from `assert trackno not in trackno_to_input` in
  `main` (the spec's `DuplicateTrackNumber`). -/
  | duplicateTrackNumber
  /-- `KeyError` from `trackno_to_input[trackno]` in `main` when no
  candidate carries the header's track number (the spec's
  `UnknownTrackNumber`). -/
  | unknownTrackNumber
deriving DecidableEq

/-- Ordered list of block types of a container:
`list(map(type, flac.metadata_blocks))`. -/
def block_order (f : FLAC) : List BlockType :=
  f.metadata_blocks.map MetadataBlock.btype

/-- Models `flac.metadata_blocks[0]` followed by a `StreamInfo` attribute
access: `IndexError` on an empty list, `AttributeError` when the first
block is not a stream-info block. -/
def first_streaminfo (f : FLAC) : Except Err StreamInfo :=
  match f.metadata_blocks with
  | [] => .error .indexError
  | .streamInfo si :: _ => .ok si
  | _ :: _ => .error .attributeError

/-- `_check_audio_data_match(input, header)`: compares the embedded
`md5_signature` of the two stream-info blocks, raising
`AudioDiffersError` on mismatch. -/
def check_audio_data_match (input : FLAC) (header : FLAC) : Except Err Unit :=
  match first_streaminfo input with
  | .error e => .error e
  | .ok input_streaminfo =>
    match first_streaminfo header with
    | .error e => .error e
    | .ok header_streaminfo =>
      if input_streaminfo.md5_signature ≠ header_streaminfo.md5_signature then
        .error .audioDiffers
      else
        .ok ()

/-- Selects seek-table blocks: `isinstance(block, SeekTable)`. -/
def seekTableOf : MetadataBlock → Option (List SeekPoint)
  | .seekTable sps => some sps
  | _ => none

/-- Selects padding blocks and their lengths: `isinstance(block, Padding)`
followed by `.length`. -/
def paddingOf : MetadataBlock → Option Nat
  | .padding n => some n
  | _ => none

/-- `_check_encoding_match(input, header)`: vendor string, the four
block/frame-size bounds, then the seek tables.  The seek-table section is
translated statement by statement: the header's seek tables are filtered
and counted (`assert len(header_seektable) <= 1`), then
`next(...)` over the candidate's blocks raises `StopIteration` when the
candidate has none, then `header_seektable[0]` raises `IndexError` when
the header has none, and finally the two tables are compared element-wise
(`SeekTable.__eq__` compares the seek-point lists). -/
def check_encoding_match (input : FLAC) (header : FLAC) : Except Err Unit :=
  if input.vendor ≠ header.vendor then .error .encodingDiffers
  else
    match first_streaminfo input with
    | .error e => .error e
    | .ok input_streaminfo =>
      match first_streaminfo header with
      | .error e => .error e
      | .ok header_streaminfo =>
        if input_streaminfo.min_blocksize ≠ header_streaminfo.min_blocksize
            ∨ input_streaminfo.max_blocksize ≠ header_streaminfo.max_blocksize
            ∨ input_streaminfo.min_framesize ≠ header_streaminfo.min_framesize
            ∨ input_streaminfo.max_framesize ≠ header_streaminfo.max_framesize then
          .error .encodingDiffers
        else
          let header_seektable := header.metadata_blocks.filterMap seekTableOf
          if header_seektable.length > 1 then .error .multipleSeekTables
          else
            match input.metadata_blocks.filterMap seekTableOf with
            | [] => .error .stopIteration
            | input_seektable :: _ =>
              match header_seektable with
              | [] => .error .indexError
              | h0 :: _ =>
                if input_seektable ≠ h0 then .error .encodingDiffers
                else .ok ()

/-- `_get_flac_padding(flac)`: asserts exactly one padding block and
returns its length; the assert fires for zero blocks as well as for two
or more. -/
def get_flac_padding (flac : FLAC) : Except Err Nat :=
  match flac.metadata_blocks.filterMap paddingOf with
  | [p] => .ok p
  | _ => .error .paddingCountNotOne

/-- Result of `flac.save(out_bio, padding=out_padding)` followed by
`out_path.write_bytes(...)`: the observable content of the written output
file.  mutagen only rewrites the metadata region, so `payload` is the
audio byte range of the container's backing file, copied unchanged. -/
structure OutputFile where
  vendor : String
  tags : List (String × String)
  padding_length : Nat
  payload : List Nat
deriving DecidableEq

/-- Tail of `_match_flac` (the transplant-and-save step): `flac.tags` is
cleared and the header's `(k, v)` pairs are appended in order (the vendor
string of a vorbis comment is not part of the cleared pair list and stays
the candidate's own), the padding callback evaluates
`_get_flac_padding(header)` during the save, and the payload bytes come
from the current container's backing file. -/
def transplant_and_save (flac : FLAC) (header : FLAC) : Except Err OutputFile :=
  match get_flac_padding header with
  | .error e => .error e
  | .ok padlen =>
    .ok { vendor := flac.vendor
          tags := header.tags
          padding_length := padlen
          payload := flac.payload }

/-- `_match_flac(flac, flac_path, header, out_path, re_encode)`.  The
second component of the result counts how many times `re_encode` was
invoked.  The `try`/`except` around the first `_check_encoding_match`
catches only `EncodingDiffersError`; every other exception propagates.
After a re-encode, `flac` is the freshly parsed container returned by
`re_encode` and `flac_path` becomes `out_path`, so the saved payload is
the re-encoded file's own byte range. -/
def match_flac (re_encode : String → FLAC → String → Except Err FLAC)
    (flac : FLAC) (flac_path : String) (header : FLAC) (out_path : String) :
    Except Err OutputFile × Nat :=
  if block_order flac ≠ block_order header then (.error .structureMismatch, 0)
  else
    match block_order header with
    | [] => (.error .indexError, 0)
    | t :: _ =>
      if t ≠ BlockType.streamInfo then (.error .structureMismatch, 0)
      else
        match check_audio_data_match flac header with
        | .error e => (.error e, 0)
        | .ok _ =>
          match check_encoding_match flac header with
          | .ok _ => (transplant_and_save flac header, 0)
          | .error .encodingDiffers =>
            match re_encode flac_path header out_path with
            | .error e => (.error e, 1)
            | .ok flac2 =>
              match check_encoding_match flac2 header with
              | .error e => (.error e, 1)
              | .ok _ => (transplant_and_save flac2 header, 1)
          | .error e => (.error e, 0)

/-- Python `str.replace(".part", "")` specialized to the call at the
output-path computation in `main`
(`header_path.name.replace(".part", "")`): a left-to-right scan replacing
every non-overlapping occurrence of `".part"` with the empty string. -/
def replaceDotPart : List Char → List Char
  | [] => []
  | '.' :: 'p' :: 'a' :: 'r' :: 't' :: rest => replaceDotPart rest
  | c :: rest => c :: replaceDotPart rest

/-- String wrapper of `replaceDotPart`: `name.replace(".part", "")`. -/
def pyReplaceDotPart (s : String) : String :=
  ⟨replaceDotPart s.data⟩

/-- Tests whether a character list contains an occurrence of `".part"`. -/
def hasDotPart : List Char → Bool
  | [] => false
  | '.' :: 'p' :: 'a' :: 'r' :: 't' :: _ => true
  | _ :: rest => hasDotPart rest

/-- Tests whether a character list starts with `".part"`. -/
def startsDotPart : List Char → Bool
  | '.' :: 'p' :: 'a' :: 'r' :: 't' :: _ => true
  | _ => false

/-- The character list of the marker `".part"`. -/
def dotPart : List Char := ['.', 'p', 'a', 'r', 't']

/-- ASCII lower-casing of one character, as Python `str.lower` acts on
the ASCII tag keys involved here. -/
def asciiLowerChar (c : Char) : Char :=
  if 'A' ≤ c ∧ c ≤ 'Z' then Char.ofNat (c.toNat + 32) else c

/-- ASCII lower-casing of a string. -/
def asciiLower (s : String) : String :=
  ⟨s.data.map asciiLowerChar⟩

/-- Accumulating decimal parse of a digit run; `none` on the first
non-digit character. -/
def digitsToNat : List Char → Nat → Option Nat
  | [], acc => some acc
  | c :: rest, acc =>
    if '0' ≤ c ∧ c ≤ '9' then digitsToNat rest (acc * 10 + (c.toNat - '0'.toNat))
    else none

/-- Python `int(...)` on the sign-and-digits strings found in
track-number tags: an optional sign followed by a nonempty digit run;
`none` on anything else (Python raises `ValueError` there). -/
def pyInt (s : String) : Option Int :=
  match s.data with
  | [] => none
  | '-' :: rest =>
    if rest.isEmpty then none
    else (digitsToNat rest 0).map (fun n => -(n : Int))
  | '+' :: rest =>
    if rest.isEmpty then none
    else (digitsToNat rest 0).map (fun n => (n : Int))
  | l => (digitsToNat l 0).map (fun n => (n : Int))

/-- mutagen tag lookup `tags[key]`: the list of values whose key matches
case-insensitively (`VCommentDict` lowercases keys), in tag order. -/
def tag_values (tags : List (String × String)) (key : String) : List String :=
  (tags.filter (fun kv => asciiLower kv.1 = key)).map (fun kv => kv.2)

/-- `int(tags["tracknumber"][0])`: `KeyError` when the tag is absent,
`ValueError` when its first value does not parse as an integer. -/
def track_number (tags : List (String × String)) : Except Err Int :=
  match tag_values tags "tracknumber" with
  | [] => .error .keyError
  | v :: _ =>
    match pyInt v with
    | some n => .ok n
    | none => .error .valueError

/-- Track-index construction loop of `main`: folds over the candidate
files in directory order, extracting each one's integer track number and
asserting it is not already present (`assert trackno not in
trackno_to_input`).  The Python dict is modeled as an association list in
insertion order. -/
def build_index : List (FLAC × String) → List (Int × FLAC × String) →
    Except Err (List (Int × FLAC × String))
  | [], acc => .ok acc
  | (input, input_path) :: rest, acc =>
    match track_number input.tags with
    | .error e => .error e
    | .ok trackno =>
      if (acc.lookup trackno).isSome then .error .duplicateTrackNumber
      else build_index rest (acc ++ [(trackno, input, input_path)])

/-- One reconciliation task as enqueued by `main`:
`(input, input_path, header, out_path, re_encode)` with
`out_path = Path(args.out, header_path.name.replace(".part", ""))`;
`out_name` is the file-name component of that path. -/
structure MatchTask where
  input : FLAC
  input_path : String
  header : FLAC
  out_name : String
deriving DecidableEq

/-- Header loop of `main`: for each header file, extract its track
number, skip it when listed in `--skip-track`, otherwise resolve the
candidate (`trackno_to_input[trackno]`, `KeyError` when absent — the
spec's `UnknownTrackNumber`) and enqueue a task.  The two trailing
accumulators model the Python loop variables `input_path` and
`header_path`, whose final values the `except AudioDiffersError` clause
of `main` interpolates into its message: `header_path` is rebound on
every iteration, `input_path` only on iterations that resolve a
candidate. -/
def header_loop (skip : List Int) (index : List (Int × FLAC × String)) :
    List (FLAC × String) → List MatchTask → Option String → Option String →
    Except Err (List MatchTask × Option String × Option String)
  | [], tasks, last_input_path, last_header_path =>
    .ok (tasks, last_input_path, last_header_path)
  | (header, header_path) :: rest, tasks, last_input_path, _ =>
    match track_number header.tags with
    | .error e => .error e
    | .ok trackno =>
      if trackno ∈ skip then
        header_loop skip index rest tasks last_input_path (some header_path)
      else
        match index.lookup trackno with
        | none => .error .unknownTrackNumber
        | some (input, input_path) =>
          header_loop skip index rest
            (tasks ++ [{ input := input
                         input_path := input_path
                         header := header
                         out_name := pyReplaceDotPart header_path }])
            (some input_path) (some header_path)

/-- Sequential model of `pool.starmap(_match_flac, tasks)` over
independent tasks: every task runs to completion regardless of sibling
failures (the pool has no cancellation), each successful task's output is
written to its own output path, and the join surfaces the first failure
in task order.  Returns the written `(out_name, output)` pairs and that
first error, if any. -/
def run_pool (re_encode : String → FLAC → String → Except Err FLAC) :
    List MatchTask → List (String × OutputFile) × Option Err
  | [] => ([], none)
  | t :: rest =>
    match (match_flac re_encode t.input t.input_path t.header t.out_name).1 with
    | .ok o =>
      ((t.out_name, o) :: (run_pool re_encode rest).1, (run_pool re_encode rest).2)
    | .error e => ((run_pool re_encode rest).1, some e)

/-- Observable outcome of `main`: normal completion, the
`assert False` message of the `except AudioDiffersError` clause
(interpolating the header loop's final `input_path` and `header_path`
variables, `none` when a variable was never bound), or any other
uncaught exception.  The latter two are non-zero process exits.  In every
case `written` lists the outputs already on disk. -/
inductive MainOutcome where
  | ok (written : List (String × OutputFile))
  | audioDiffersReport (reported_input_path : Option String)
      (reported_header_path : Option String)
      (written : List (String × OutputFile))
  | fatal (e : Err) (written : List (String × OutputFile))
deriving DecidableEq

/-- `main()`: build the track index, run the header loop to enqueue
tasks, dispatch them to the pool, and translate the first pool failure
through the `except AudioDiffersError` clause. -/
def main_run (re_encode : String → FLAC → String → Except Err FLAC)
    (skip : List Int) (inputs : List (FLAC × String))
    (headers : List (FLAC × String)) : MainOutcome :=
  match build_index inputs [] with
  | .error e => .fatal e []
  | .ok index =>
    match header_loop skip index headers [] none none with
    | .error e => .fatal e []
    | .ok (tasks, last_input_path, last_header_path) =>
      match (run_pool re_encode tasks).2 with
      | none => .ok (run_pool re_encode tasks).1
      | some .audioDiffers =>
        .audioDiffersReport last_input_path last_header_path
          (run_pool re_encode tasks).1
      | some e => .fatal e (run_pool re_encode tasks).1

/-- Vendor string shared by the concrete containers below. -/
def vend_w : String := "reference libFLAC 1.3.2 20190804"

/-- Stream info shared by the compatible concrete pair. -/
def si_w : StreamInfo :=
  { min_blocksize := 4096, max_blocksize := 4096
    min_framesize := 14, max_framesize := 7000
    sample_rate := 44100, channels := 2, bits_per_sample := 16
    total_samples := 88200, md5_signature := 111 }

/-- Stream info whose embedded checksum differs from `si_w`. -/
def si_bad_w : StreamInfo :=
  { min_blocksize := 4096, max_blocksize := 4096
    min_framesize := 14, max_framesize := 7000
    sample_rate := 44100, channels := 2, bits_per_sample := 16
    total_samples := 88200, md5_signature := 999 }

/-- Seek table shared by the compatible concrete pair. -/
def st_w : List SeekPoint :=
  [{ first_sample := 0, byte_offset := 0, num_samples := 4096 }]

/-- Candidate for track 1 whose checksum differs from its header. -/
def cand1_w : FLAC :=
  { metadata_blocks := [.streamInfo si_w, .seekTable st_w, .vorbisComment, .padding 50]
    vendor := vend_w
    tags := [("tracknumber", "1"), ("title", "candidate one")]
    payload := [10, 11, 12] }

/-- Header for track 1 with a checksum differing from `cand1_w`. -/
def head1_w : FLAC :=
  { metadata_blocks := [.streamInfo si_bad_w, .seekTable st_w, .vorbisComment, .padding 4096]
    vendor := vend_w
    tags := [("tracknumber", "1"), ("title", "header one")]
    payload := [90] }

/-- Candidate for track 2, fully compatible with `head2_w`. -/
def cand2_w : FLAC :=
  { metadata_blocks := [.streamInfo si_w, .seekTable st_w, .vorbisComment, .padding 77]
    vendor := vend_w
    tags := [("tracknumber", "2"), ("title", "candidate two")]
    payload := [1, 2, 3, 4] }

/-- Header for track 2, fully compatible with `cand2_w`. -/
def head2_w : FLAC :=
  { metadata_blocks := [.streamInfo si_w, .seekTable st_w, .vorbisComment, .padding 4096]
    vendor := vend_w
    tags := [("tracknumber", "2"), ("title", "header two"), ("album", "A")]
    payload := [90, 91] }

/-- Output written for the `(cand2_w, head2_w)` task: the header's tags,
the header's padding length, the candidate's payload bytes. -/
def out2_w : OutputFile :=
  { vendor := vend_w
    tags := head2_w.tags
    padding_length := 4096
    payload := cand2_w.payload }

/-- Candidate with no seek-table block (vendor and bounds match
`head_nost_w`). -/
def cand_nost_w : FLAC :=
  { metadata_blocks := [.streamInfo si_w, .vorbisComment, .padding 10]
    vendor := vend_w
    tags := [("tracknumber", "3")]
    payload := [5, 6] }

/-- Header with no seek-table block (vendor and bounds match
`cand_nost_w`). -/
def head_nost_w : FLAC :=
  { metadata_blocks := [.streamInfo si_w, .vorbisComment, .padding 4096]
    vendor := vend_w
    tags := [("tracknumber", "3")]
    payload := [7] }

/-- Candidate with block types [StreamDescriptor, Padding, Tags]. -/
def cand_c4_w : FLAC :=
  { metadata_blocks := [.streamInfo si_w, .padding 10, .vorbisComment]
    vendor := vend_w
    tags := [("tracknumber", "4")]
    payload := [8] }

/-- Header with block types [StreamDescriptor, Tags, Padding]. -/
def head_c4_w : FLAC :=
  { metadata_blocks := [.streamInfo si_w, .vorbisComment, .padding 4096]
    vendor := vend_w
    tags := [("tracknumber", "4")]
    payload := [9] }

/-- Header declaring track number 99. -/
def head99_w : FLAC :=
  { metadata_blocks := [.streamInfo si_w, .vorbisComment, .padding 4096]
    vendor := vend_w
    tags := [("tracknumber", "99")]
    payload := [1] }

/-- Candidate whose track-number tag value is not an integer. -/
def cand_badtag_w : FLAC :=
  { metadata_blocks := [.streamInfo si_w, .vorbisComment, .padding 10]
    vendor := vend_w
    tags := [("tracknumber", "one")]
    payload := [2] }

/-- Concrete re-encode stub; the runs below never take the re-encode
branch, so any function serves. -/
def re_w : String → FLAC → String → Except Err FLAC :=
  fun _ _ _ => .error .encodingDiffers

/-- Candidate directory of the two-track concrete batch. -/
def c7_inputs : List (FLAC × String) :=
  [(cand1_w, "in1.flac"), (cand2_w, "in2.flac")]

/-- Header directory of the two-track concrete batch: the first pair
fails the audio-identity check, the second succeeds. -/
def c7_headers : List (FLAC × String) :=
  [(head1_w, "h1.flac.part"), (head2_w, "h2.flac.part")]

/-- Track index built from `c7_inputs`. -/
def c7_index : List (Int × FLAC × String) :=
  [(1, cand1_w, "in1.flac"), (2, cand2_w, "in2.flac")]

/-- Task enqueued for the failing first pair of the concrete batch. -/
def c7_task1 : MatchTask :=
  { input := cand1_w, input_path := "in1.flac"
    header := head1_w, out_name := "h1.flac" }

/-- Task enqueued for the succeeding second pair of the concrete batch. -/
def c7_task2 : MatchTask :=
  { input := cand2_w, input_path := "in2.flac"
    header := head2_w, out_name := "h2.flac" }

/-- Task list produced by the header loop on the concrete batch. -/
def c7_tasks : List MatchTask := [c7_task1, c7_task2]

/-- A successful `first_streaminfo` exposes the head of the block list. -/
theorem first_streaminfo_shape (f : FLAC) (si : StreamInfo)
    (h : first_streaminfo f = .ok si) :
    ∃ rest, f.metadata_blocks = .streamInfo si :: rest := by
  unfold first_streaminfo at h
  match hb : f.metadata_blocks with
  | [] => rw [hb] at h; exact absurd h (by simp)
  | .streamInfo si' :: rest =>
    rw [hb] at h
    simp only [Except.ok.injEq] at h
    exact ⟨rest, by rw [h]⟩
  | .seekTable _ :: rest => rw [hb] at h; exact absurd h (by simp)
  | .vorbisComment :: rest => rw [hb] at h; exact absurd h (by simp)
  | .padding _ :: rest => rw [hb] at h; exact absurd h (by simp)
  | .picture :: rest => rw [hb] at h; exact absurd h (by simp)
  | .cueSheet :: rest => rw [hb] at h; exact absurd h (by simp)
  | .application :: rest => rw [hb] at h; exact absurd h (by simp)

/-- C1: for every (candidate, header) pair whose embedded
stream-descriptor checksums are equal and whose encoding parameters are
equal (the encoding-compatibility check succeeds), the reconciliation
produces an output whose tag list equals the header's tag list exactly
(the candidate's tags fully replaced, insertion order preserved), whose
padding length equals the header's single padding block's length, and
whose audio payload is byte-identical to the candidate's original
payload; no re-encode is invoked. -/
theorem C1_transplant_exact
    (re_encode : String → FLAC → String → Except Err FLAC)
    (flac : FLAC) (flac_path : String) (header : FLAC) (out_path : String)
    (isi hsi : StreamInfo) (padlen : Nat)
    (horder : block_order flac = block_order header)
    (hfi : first_streaminfo flac = .ok isi)
    (hfh : first_streaminfo header = .ok hsi)
    (hmd5 : isi.md5_signature = hsi.md5_signature)
    (henc : check_encoding_match flac header = .ok ())
    (hpad : get_flac_padding header = .ok padlen) :
    match_flac re_encode flac flac_path header out_path =
      (.ok { vendor := flac.vendor, tags := header.tags,
             padding_length := padlen, payload := flac.payload }, 0) := by
  obtain ⟨rest, hblocks⟩ := first_streaminfo_shape header hsi hfh
  have haud : check_audio_data_match flac header = .ok () := by
    unfold check_audio_data_match
    rw [hfi, hfh]
    simp [hmd5]
  have horder' : block_order header = BlockType.streamInfo :: rest.map MetadataBlock.btype := by
    unfold block_order
    rw [hblocks]
    simp [MetadataBlock.btype]
  unfold match_flac
  rw [horder, horder', haud, henc]
  simp [transplant_and_save, hpad]

/-- Witness for C1: the compatible concrete pair `(cand2_w, head2_w)`
yields exactly the header's tags, the header's padding length 4096 and
the candidate's payload bytes. -/
theorem C1_transplant_exact_witness :
    match_flac re_w cand2_w "in2.flac" head2_w "h2.flac" = (.ok out2_w, 0) := by
  rw [C1_transplant_exact re_w cand2_w "in2.flac" head2_w "h2.flac" si_w si_w 4096
      (by decide) (by decide) (by decide) (by decide) (by decide) (by decide)]
  decide

/-- C2: for a task that passes the audio-identity check, the re-encode is
invoked exactly when the encoding-compatibility check fails with
`EncodingDiffers` (never when it succeeds); when invoked there is exactly
one invocation, the freshly parsed container returned by the re-encode is
re-run through the compatibility check, and the task fails with
`EncodingDiffers` (still a single invocation) if that re-check still
fails. -/
theorem C2_reencode_policy
    (re_encode : String → FLAC → String → Except Err FLAC)
    (flac : FLAC) (flac_path : String) (header : FLAC) (out_path : String)
    (horder : block_order flac = block_order header)
    (hfirst : (block_order header).head? = some BlockType.streamInfo)
    (haud : check_audio_data_match flac header = .ok ()) :
    (check_encoding_match flac header = .ok () →
       (match_flac re_encode flac flac_path header out_path).2 = 0)
    ∧ (check_encoding_match flac header = .error .encodingDiffers →
       (match_flac re_encode flac flac_path header out_path).2 = 1
       ∧ ∀ flac2, re_encode flac_path header out_path = .ok flac2 →
           check_encoding_match flac2 header = .error .encodingDiffers →
           (match_flac re_encode flac flac_path header out_path).1
             = .error .encodingDiffers) := by
  match hbo : block_order header with
  | [] => rw [hbo] at hfirst; exact absurd hfirst (by simp)
  | t :: ts =>
    rw [hbo] at hfirst
    simp only [List.head?_cons, Option.some.injEq] at hfirst
    subst hfirst
    constructor
    · intro henc
      unfold match_flac
      rw [horder, hbo, haud, henc]
      simp
    · intro henc
      constructor
      · unfold match_flac
        rw [horder, hbo, haud, henc]
        match hre : re_encode flac_path header out_path with
        | .error e => simp [hre]
        | .ok flac2 =>
          match henc2 : check_encoding_match flac2 header with
          | .error e => simp [hre, henc2]
          | .ok u => simp [hre, henc2]
      · intro flac2 hre henc2
        unfold match_flac
        rw [horder, hbo, haud, henc, hre]
        simp [henc2]

/-- Witness for C2: the already-compatible concrete pair invokes the
re-encoder zero times. -/
theorem C2_reencode_policy_witness :
    (match_flac re_w cand2_w "in2.flac" head2_w "h2.flac").2 = 0 :=
  (C2_reencode_policy re_w cand2_w "in2.flac" head2_w "h2.flac"
    (by decide) (by decide) (by decide)).1 (by decide)

/-- C4: when the ordered block-type lists differ, or the header's first
block type is not the stream descriptor, the task fails with
`StructureMismatch`; the result is the same for all checksum values (the
containers are universally quantified), so no checksum comparison can
have influenced it. -/
theorem C4_structure_mismatch_first
    (re_encode : String → FLAC → String → Except Err FLAC)
    (flac : FLAC) (flac_path : String) (header : FLAC) (out_path : String)
    (h : block_order flac ≠ block_order header
         ∨ ∃ t ts, block_order header = t :: ts ∧ t ≠ BlockType.streamInfo) :
    match_flac re_encode flac flac_path header out_path
      = (.error .structureMismatch, 0) := by
  unfold match_flac
  by_cases heq : block_order flac = block_order header
  · rcases h with h | ⟨t, ts, hbo, ht⟩
    · exact absurd heq h
    · rw [heq, hbo]
      simp [ht]
  · simp [heq]

/-- Witness for C4: header block types [StreamDescriptor, Tags, Padding]
against candidate block types [StreamDescriptor, Padding, Tags] fail with
`StructureMismatch` and never reach the checksum comparison. -/
theorem C4_structure_mismatch_first_witness :
    match_flac re_w cand_c4_w "in4.flac" head_c4_w "h4.flac"
      = (.error .structureMismatch, 0) :=
  C4_structure_mismatch_first re_w cand_c4_w "in4.flac" head_c4_w "h4.flac"
    (Or.inl (by decide))

/-- C5: a pair that passes structural validation but whose embedded
stream-descriptor checksums differ fails with `AudioDiffers`; the
re-encode count is 0 and the error is returned before the
encoding-compatibility check or the transplant, whatever the rest of the
containers and the re-encode function are. -/
theorem C5_audio_differs_short_circuit
    (re_encode : String → FLAC → String → Except Err FLAC)
    (flac : FLAC) (flac_path : String) (header : FLAC) (out_path : String)
    (isi hsi : StreamInfo)
    (horder : block_order flac = block_order header)
    (hfi : first_streaminfo flac = .ok isi)
    (hfh : first_streaminfo header = .ok hsi)
    (hmd5 : isi.md5_signature ≠ hsi.md5_signature) :
    match_flac re_encode flac flac_path header out_path
      = (.error .audioDiffers, 0) := by
  obtain ⟨rest, hblocks⟩ := first_streaminfo_shape header hsi hfh
  have haud : check_audio_data_match flac header = .error .audioDiffers := by
    unfold check_audio_data_match
    rw [hfi, hfh]
    simp [hmd5]
  have horder' : block_order header = BlockType.streamInfo :: rest.map MetadataBlock.btype := by
    unfold block_order
    rw [hblocks]
    simp [MetadataBlock.btype]
  unfold match_flac
  rw [horder, horder', haud]
  simp

/-- Witness for C5: the concrete pair with differing checksums but
otherwise identical structure and encoding parameters fails with
`AudioDiffers` and re-encodes nothing. -/
theorem C5_audio_differs_short_circuit_witness :
    match_flac re_w cand1_w "in1.flac" head1_w "h1.flac"
      = (.error .audioDiffers, 0) :=
  C5_audio_differs_short_circuit re_w cand1_w "in1.flac" head1_w "h1.flac"
    si_w si_bad_w (by decide) (by decide) (by decide) (by decide)

/-- C3: contrary to the claim, when neither container declares a
seek-table block the encoding-compatibility check does not succeed: even
with equal vendor strings and equal block-size and frame-size bounds, the
`next(...)` over the candidate's seek tables raises `StopIteration`,
which no caller catches.  This evaluates the code on the claim's
scenario and exhibits the divergence. -/
theorem C3_no_seektable_raises
    (input : FLAC) (header : FLAC) (isi hsi : StreamInfo)
    (hv : input.vendor = header.vendor)
    (hfi : first_streaminfo input = .ok isi)
    (hfh : first_streaminfo header = .ok hsi)
    (hb1 : isi.min_blocksize = hsi.min_blocksize)
    (hb2 : isi.max_blocksize = hsi.max_blocksize)
    (hb3 : isi.min_framesize = hsi.min_framesize)
    (hb4 : isi.max_framesize = hsi.max_framesize)
    (hsn : input.metadata_blocks.filterMap seekTableOf = [])
    (hhn : header.metadata_blocks.filterMap seekTableOf = []) :
    check_encoding_match input header = .error .stopIteration := by
  unfold check_encoding_match
  rw [hv, hfi, hfh]
  simp [hb1, hb2, hb3, hb4, hhn, hsn]

/-- Witness for C3: a concrete pair with equal vendor and bounds and no
seek-table blocks makes the compatibility check raise `StopIteration`
instead of succeeding. -/
theorem C3_no_seektable_raises_witness :
    check_encoding_match cand_nost_w head_nost_w = .error .stopIteration :=
  C3_no_seektable_raises cand_nost_w head_nost_w si_w si_w
    (by decide) (by decide) (by decide) (by decide) (by decide) (by decide)
    (by decide) (by decide) (by decide)

/-- A successful `_get_flac_padding` means exactly one padding block. -/
theorem get_flac_padding_single (f : FLAC) (p : Nat)
    (h : get_flac_padding f = .ok p) :
    (f.metadata_blocks.filterMap paddingOf).length = 1 := by
  unfold get_flac_padding at h
  match hl : f.metadata_blocks.filterMap paddingOf with
  | [q] => rfl
  | [] => rw [hl] at h; exact absurd h (by simp)
  | q :: r :: t => rw [hl] at h; exact absurd h (by simp)

/-- A successful transplant-and-save means the header had exactly one
padding block. -/
theorem transplant_ok_single_padding (f : FLAC) (header : FLAC)
    (out : OutputFile) (h : transplant_and_save f header = .ok out) :
    (header.metadata_blocks.filterMap paddingOf).length = 1 := by
  unfold transplant_and_save at h
  match hp : get_flac_padding header with
  | .error e => rw [hp] at h; exact absurd h (by simp)
  | .ok q => exact get_flac_padding_single header q hp

/-- C9: padding extraction requires the header to have exactly one
padding block — zero padding blocks fail just like several — so every
task that produces an output does so from a header with exactly one
padding block. -/
theorem C9_success_needs_single_padding
    (re_encode : String → FLAC → String → Except Err FLAC)
    (flac : FLAC) (flac_path : String) (header : FLAC) (out_path : String)
    (out : OutputFile) (k : Nat)
    (h : match_flac re_encode flac flac_path header out_path = (.ok out, k)) :
    (header.metadata_blocks.filterMap paddingOf).length = 1 := by
  unfold match_flac at h
  split at h
  · exact absurd h (by simp)
  · split at h
    · exact absurd h (by simp)
    · split at h
      · exact absurd h (by simp)
      · split at h
        · exact absurd h (by simp)
        · split at h
          · simp only [Prod.mk.injEq] at h
            exact transplant_ok_single_padding flac header out h.1
          · split at h
            · exact absurd h (by simp)
            · split at h
              · exact absurd h (by simp)
              · simp only [Prod.mk.injEq] at h
                exact transplant_ok_single_padding _ header out h.1
          · exact absurd h (by simp)

/-- Witness for C9: the successful concrete run came from a header with
exactly one padding block. -/
theorem C9_success_needs_single_padding_witness :
    (head2_w.metadata_blocks.filterMap paddingOf).length = 1 :=
  C9_success_needs_single_padding re_w cand2_w "in2.flac" head2_w "h2.flac"
    out2_w 0 (by decide)

/-- C6: a header whose extracted track number is not in the skip list and
is carried by no candidate in the index makes the pairing loop fail with
`UnknownTrackNumber`; a header whose track number is in the skip list is
skipped (the loop continues with no task added and no lookup performed),
so it never causes this failure. -/
theorem C6_unknown_track_number
    (skip : List Int) (index : List (Int × FLAC × String))
    (header : FLAC) (header_path : String) (rest : List (FLAC × String))
    (tasks : List MatchTask) (lip lhp : Option String) (n : Int)
    (hn : track_number header.tags = .ok n) :
    (n ∉ skip → index.lookup n = none →
       header_loop skip index ((header, header_path) :: rest) tasks lip lhp
         = .error .unknownTrackNumber)
    ∧ (n ∈ skip →
       header_loop skip index ((header, header_path) :: rest) tasks lip lhp
         = header_loop skip index rest tasks lip (some header_path)) := by
  constructor
  · intro hskip hlook
    unfold header_loop
    rw [hn]
    simp [hskip, hlook]
  · intro hskip
    conv_lhs => unfold header_loop
    rw [hn]
    simp [hskip]

/-- Witness for C6: a header declaring track number 99 with no
corresponding candidate fails with `UnknownTrackNumber`. -/
theorem C6_unknown_track_number_witness :
    header_loop [] [] [(head99_w, "99.flac.part")] [] none none
      = .error .unknownTrackNumber :=
  (C6_unknown_track_number [] [] head99_w "99.flac.part" [] [] none none 99
    (by decide)).1 (by decide) (by decide)

/-- A successfully built track index means every candidate's track-number
tag was present and parsed as an integer. -/
theorem build_index_ok_parses
    (inputs : List (FLAC × String)) (acc idx : List (Int × FLAC × String))
    (h : build_index inputs acc = .ok idx) :
    ∀ fp ∈ inputs, ∃ n, track_number fp.1.tags = .ok n := by
  induction inputs generalizing acc with
  | nil =>
    intro fp hfp
    exact absurd hfp (by simp)
  | cons hd tl ih =>
    intro fp hfp
    obtain ⟨input, path⟩ := hd
    unfold build_index at h
    match ht : track_number input.tags with
    | .error e =>
      rw [ht] at h
      exact absurd h (by simp)
    | .ok n =>
      rw [ht] at h
      cases hdup : (acc.lookup n).isSome with
      | true =>
        simp [hdup] at h
      | false =>
        simp [hdup] at h
        rcases List.mem_cons.mp hfp with heq | hmem
        · subst heq
          exact ⟨n, ht⟩
        · exact ih _ h fp hmem

/-- C10: a single candidate in the candidates directory whose
track-number tag is missing or does not parse as an integer makes the
track-index construction fail, and `main` stops there: no task is
dispatched and nothing is written, whatever the headers are. -/
theorem C10_bad_candidate_fails_before_dispatch
    (re_encode : String → FLAC → String → Except Err FLAC)
    (skip : List Int) (inputs headers : List (FLAC × String))
    (f : FLAC) (p : String) (e0 : Err)
    (hmem : (f, p) ∈ inputs)
    (hbad : track_number f.tags = .error e0) :
    ∃ e, build_index inputs [] = .error e
      ∧ main_run re_encode skip inputs headers = .fatal e [] := by
  match hidx : build_index inputs [] with
  | .ok idx =>
    obtain ⟨n, hn⟩ := build_index_ok_parses inputs [] idx hidx (f, p) hmem
    rw [hbad] at hn
    exact absurd hn (by simp)
  | .error e =>
    refine ⟨e, rfl, ?_⟩
    unfold main_run
    rw [hidx]

/-- Witness for C10: one candidate whose track-number tag value is the
string "one" aborts index construction with no task dispatched, even
with an empty headers directory. -/
theorem C10_bad_candidate_fails_before_dispatch_witness :
    ∃ e, build_index [(cand_badtag_w, "bad.flac")] [] = .error e
      ∧ main_run re_w [] [(cand_badtag_w, "bad.flac")] [] = .fatal e [] :=
  C10_bad_candidate_fails_before_dispatch re_w [] [(cand_badtag_w, "bad.flac")]
    [] cand_badtag_w "bad.flac" .valueError (by decide) (by decide)

/-- An output produced by a successful task is among the pool's written
files, whatever other tasks do. -/
theorem run_pool_writes_ok
    (re_encode : String → FLAC → String → Except Err FLAC)
    (tasks : List MatchTask) (u : MatchTask) (o : OutputFile)
    (hu : u ∈ tasks)
    (ho : (match_flac re_encode u.input u.input_path u.header u.out_name).1
            = .ok o) :
    (u.out_name, o) ∈ (run_pool re_encode tasks).1 := by
  induction tasks with
  | nil => simp at hu
  | cons t rest ih =>
    rcases List.mem_cons.mp hu with heq | hmem
    · subst heq
      unfold run_pool
      rw [ho]
      exact List.mem_cons_self _ _
    · have ih' := ih hmem
      unfold run_pool
      match hr : (match_flac re_encode t.input t.input_path t.header t.out_name).1 with
      | .ok o2 => exact List.mem_cons_of_mem _ ih'
      | .error e2 => exact ih'

/-- A failing task makes the pool join surface some error. -/
theorem run_pool_err_of_fail
    (re_encode : String → FLAC → String → Except Err FLAC)
    (tasks : List MatchTask) (u : MatchTask) (e : Err)
    (hu : u ∈ tasks)
    (he : (match_flac re_encode u.input u.input_path u.header u.out_name).1
            = .error e) :
    (run_pool re_encode tasks).2.isSome = true := by
  induction tasks with
  | nil => simp at hu
  | cons t rest ih =>
    rcases List.mem_cons.mp hu with heq | hmem
    · subst heq
      unfold run_pool
      rw [he]
      rfl
    · have ih' := ih hmem
      unfold run_pool
      match hr : (match_flac re_encode t.input t.input_path t.header t.out_name).1 with
      | .ok o2 => exact ih'
      | .error e2 => rfl

/-- C7 (amended): when any dispatched task fails, the whole pool still
runs and the process does not finish normally (the outcome is never
`ok`, hence a non-zero exit), and the outputs of all successful sibling
tasks remain among the written files — nothing is deleted or rolled
back.  Only the first failure is surfaced, and (per the counterexample)
an `AudioDiffers` failure is reported with the pairing loop's last-seen
paths rather than the failing task's own. -/
theorem C7_first_failure_no_rollback
    (re_encode : String → FLAC → String → Except Err FLAC)
    (skip : List Int) (inputs headers : List (FLAC × String))
    (index : List (Int × FLAC × String)) (tasks : List MatchTask)
    (lip lhp : Option String) (t : MatchTask) (e : Err)
    (hidx : build_index inputs [] = .ok index)
    (hloop : header_loop skip index headers [] none none = .ok (tasks, lip, lhp))
    (ht : t ∈ tasks)
    (hfail : (match_flac re_encode t.input t.input_path t.header t.out_name).1
               = .error e) :
    (∀ w, main_run re_encode skip inputs headers ≠ .ok w)
    ∧ (∀ u ∈ tasks, ∀ o,
        (match_flac re_encode u.input u.input_path u.header u.out_name).1
          = .ok o →
        (u.out_name, o) ∈ (run_pool re_encode tasks).1) := by
  constructor
  · intro w hok
    have hsome := run_pool_err_of_fail re_encode tasks t e ht hfail
    obtain ⟨e2, he2⟩ := Option.isSome_iff_exists.mp hsome
    unfold main_run at hok
    rw [hidx] at hok
    simp only [hloop, he2] at hok
    cases e2 <;> simp at hok
  · intro u hu o ho
    exact run_pool_writes_ok re_encode tasks u o hu ho

/-- Witness for C7 (amended): in the concrete two-task batch whose first
task fails with `AudioDiffers`, the run does not finish normally and
the successful second task's output stays written. -/
theorem C7_first_failure_no_rollback_witness :
    (∀ w, main_run re_w [] c7_inputs c7_headers ≠ .ok w)
    ∧ (∀ u ∈ c7_tasks, ∀ o,
        (match_flac re_w u.input u.input_path u.header u.out_name).1 = .ok o →
        (u.out_name, o) ∈ (run_pool re_w c7_tasks).1) :=
  C7_first_failure_no_rollback re_w [] c7_inputs c7_headers c7_index c7_tasks
    (some "in2.flac") (some "h2.flac.part") c7_task1 .audioDiffers
    (by decide) (by decide) (by decide) (by decide)

/-- Counterexample for C7 as stated: in the concrete batch only the
first task (candidate path "in1.flac") fails, yet the failure report
carries the last enumerated pair's paths "in2.flac"/"h2.flac.part", not
the failing task's own, and only this single report is produced. -/
theorem C7_last_pair_reported_counterexample :
    main_run re_w [] c7_inputs c7_headers
      = .audioDiffersReport (some "in2.flac") (some "h2.flac.part")
          [("h2.flac", out2_w)]
    ∧ (match_flac re_w c7_task1.input c7_task1.input_path c7_task1.header
        c7_task1.out_name).1 = .error .audioDiffers
    ∧ c7_task1.input_path ≠ "in2.flac" :=
  ⟨by decide, by decide, by decide⟩

/-- When a list does not start with the marker `".part"`, the replace
scan keeps its head character and continues on the tail. -/
theorem replaceDotPart_step (c : Char) (l : List Char)
    (h : startsDotPart (c :: l) = false) :
    replaceDotPart (c :: l) = c :: replaceDotPart l := by
  rw [replaceDotPart.eq_def]
  split
  all_goals first
  | rfl
  | simp_all [startsDotPart]

/-- A list free of `".part"` occurrences neither starts with the marker
nor contains it in its tail. -/
theorem hasDotPart_cons (c : Char) (m : List Char)
    (h : hasDotPart (c :: m) = false) :
    startsDotPart (c :: m) = false ∧ hasDotPart m = false := by
  rw [hasDotPart.eq_def] at h
  split at h
  · rename_i heq
    exact absurd heq (by simp)
  · exact absurd h (by simp)
  · rename_i c2 rest2 hne heq
    injection heq with hc hm
    subst hc
    subst hm
    refine ⟨?_, h⟩
    rw [startsDotPart.eq_def]
    split
    · rename_i rest3 heq3
      injection heq3 with hc3 hm3
      exact (hne rest3 hc3 hm3).elim
    · rfl

/-- Appending the marker `".part"` to a list that does not start with the
marker cannot create a marker occurrence at the very front: the marker's
only period is its first character, so no occurrence can straddle the
boundary. -/
theorem startsDotPart_append (c : Char) (m : List Char)
    (hstart : startsDotPart (c :: m) = false) :
    startsDotPart ((c :: m) ++ dotPart) = false := by
  match m with
  | [] =>
    rw [startsDotPart.eq_def]
    split
    · rename_i rest heq
      simp_all [dotPart]
    · rfl
  | [x] =>
    rw [startsDotPart.eq_def]
    split
    · rename_i rest heq
      simp_all [dotPart]
    · rfl
  | [x, y] =>
    rw [startsDotPart.eq_def]
    split
    · rename_i rest heq
      simp_all [dotPart]
    · rfl
  | [x, y, z] =>
    rw [startsDotPart.eq_def]
    split
    · rename_i rest heq
      simp_all [dotPart]
    · rfl
  | x :: y :: z :: w :: rest0 =>
    rw [startsDotPart.eq_def]
    split
    · rename_i rest heq
      simp only [List.cons_append, List.cons.injEq] at heq
      obtain ⟨h1, h2, h3, h4, h5, _⟩ := heq
      subst h1
      subst h2
      subst h3
      subst h4
      subst h5
      simp [startsDotPart] at hstart
    · rfl

/-- C8 (amended): the output name computation `name.replace(".part", "")`
removes every occurrence of `".part"`, not only the trailing marker; for
a header name whose stem contains no other occurrence of `".part"`, the
output name is exactly the name with the trailing marker stripped and
the rest preserved identically. -/
theorem C8_strip_suffix (m : List Char) (h : hasDotPart m = false) :
    replaceDotPart (m ++ dotPart) = m
    ∧ pyReplaceDotPart (String.mk (m ++ dotPart)) = String.mk m := by
  have hs : replaceDotPart (m ++ dotPart) = m := by
    induction m with
    | nil => rfl
    | cons c m ih =>
      obtain ⟨hstart, hm⟩ := hasDotPart_cons c m h
      have hsa := startsDotPart_append c m hstart
      rw [List.cons_append] at hsa
      rw [List.cons_append, replaceDotPart_step c (m ++ dotPart) hsa, ih hm]
  exact ⟨hs, congrArg String.mk hs⟩

/-- Witness for C8 (amended): the header name "track01.flac.part" has no
`".part"` occurrence in its stem, and the output name is exactly
"track01.flac". -/
theorem C8_strip_suffix_witness :
    replaceDotPart ("track01.flac".data ++ dotPart) = "track01.flac".data
    ∧ pyReplaceDotPart (String.mk ("track01.flac".data ++ dotPart))
        = String.mk "track01.flac".data :=
  C8_strip_suffix "track01.flac".data (by decide)

/-- Counterexample for C8 as stated: the header name "01.part.flac.part"
(matched by the `*.flac.part` glob) maps to "01.flac" — every `".part"`
occurrence is removed — whereas stripping only the trailing marker would
give "01.part.flac". -/
theorem C8_replace_all_counterexample :
    pyReplaceDotPart "01.part.flac.part" = "01.flac"
    ∧ pyReplaceDotPart "01.part.flac.part" ≠ "01.part.flac" :=
  ⟨by decide, by decide⟩
